import Mathlib

/-!
Verification development for the audio-notes application (`src/app.py`).

The application stores user notes as vector points in a Qdrant collection
and retrieves them either by unranked scroll or by similarity search.
The external collaborators (OpenAI embedding endpoint, Qdrant store) are
modelled shallowly: the embedding is an arbitrary function
`embed : String → List ℚ` and the store-side similarity measure is an
arbitrary function `sim : List ℚ → List ℚ → ℚ`; the store's collection /
point semantics (count, upsert-by-id, scroll ordered by ascending id,
search ordered by descending score, both capped by `limit`) is embedded
explicitly.
-/

/-- `EMBEDDING_DIM = 1536` from `src/app.py`. -/
def EMBEDDING_DIM : Nat := 1536

/-- `QDRANT_COLLECTION_NAME = "notes"` from `src/app.py`. -/
def QDRANT_COLLECTION_NAME : String := "notes"

/-- Distance metric of a Qdrant collection; the app only ever uses cosine. -/
inductive Distance where
  | COSINE
  | EUCLID
  | DOT
deriving DecidableEq, Repr

/-- A stored point: integer id, vector, and a payload mapping
(in this app always the single-key mapping `{"text": note_text}`,
modelled as an association list). -/
structure PointStruct where
  id : Nat
  vector : List ℚ
  payload : List (String × String)
deriving DecidableEq, Repr

/-- The `"text"` field of a point's payload (`note.payload["text"]` in the
source; every point written by this app carries that key, so the default
branch never fires on app-written data). -/
def PointStruct.payloadText (p : PointStruct) : String :=
  (((p.payload.find? (fun kv => kv.1 == "text"))).map (fun kv => kv.2)).getD ""

/-- A Qdrant collection: vector size, distance metric, and stored points. -/
structure Collection where
  size : Nat
  distance : Distance
  points : List PointStruct
deriving DecidableEq, Repr

/-- The Qdrant store: named collections. -/
structure QdrantDB where
  collections : List (String × Collection)
deriving DecidableEq, Repr

def QdrantDB.getCollection (db : QdrantDB) (name : String) : Option Collection :=
  (db.collections.find? (fun c => c.1 == name)).map (fun c => c.2)

/-- `qdrant_client.collection_exists(collection_name=...)`. -/
def QdrantDB.collection_exists (db : QdrantDB) (name : String) : Bool :=
  (db.getCollection name).isSome

/-- `qdrant_client.create_collection(...)`: errors if the collection
already exists (Qdrant semantics), otherwise adds an empty collection. -/
def QdrantDB.create_collection (db : QdrantDB) (name : String) (size : Nat)
    (distance : Distance) : Except String QdrantDB :=
  if db.collection_exists name then
    .error "collection already exists"
  else
    .ok { collections := db.collections ++ [(name, ⟨size, distance, []⟩)] }

/-- `qdrant_client.count(collection_name=..., exact=True).count`:
the exact number of points in the collection (0 if absent; in the app the
collection is always created before any count). -/
def QdrantDB.countPoints (db : QdrantDB) (name : String) : Nat :=
  match db.getCollection name with
  | some c => c.points.length
  | none => 0

/-- Insert-or-overwrite-by-id inside one collection (Qdrant upsert). -/
def Collection.upsertPoint (c : Collection) (p : PointStruct) : Collection :=
  if c.points.any (fun q => q.id == p.id) then
    { c with points := c.points.map (fun q => if q.id == p.id then p else q) }
  else
    { c with points := c.points ++ [p] }

/-- `qdrant_client.upsert(collection_name=..., points=[p])`. -/
def QdrantDB.upsert (db : QdrantDB) (name : String) (p : PointStruct) : QdrantDB :=
  { collections :=
      db.collections.map (fun c => if c.1 == name then (c.1, c.2.upsertPoint p) else c) }

/-- `qdrant_client.scroll(collection_name=..., limit=n)[0]`: in local mode
the scroll enumerates points ordered by ascending id, capped at `limit`. -/
def Collection.scroll (c : Collection) (limit : Nat) : List PointStruct :=
  (List.insertionSort (fun a b => a.id ≤ b.id) c.points).take limit

def QdrantDB.scroll (db : QdrantDB) (name : String) (limit : Nat) : List PointStruct :=
  match db.getCollection name with
  | some c => c.scroll limit
  | none => []

/-- `qdrant_client.search(collection_name=..., query_vector=v, limit=n)`:
every stored point scored by the store's similarity measure, ordered by
descending score, capped at `limit`. -/
def Collection.searchPoints (c : Collection) (sim : List ℚ → List ℚ → ℚ)
    (query_vector : List ℚ) (limit : Nat) : List (PointStruct × ℚ) :=
  (List.insertionSort (fun a b => b.2 ≤ a.2)
    (c.points.map (fun p => (p, sim query_vector p.vector)))).take limit

def QdrantDB.searchPoints (db : QdrantDB) (name : String) (sim : List ℚ → List ℚ → ℚ)
    (query_vector : List ℚ) (limit : Nat) : List (PointStruct × ℚ) :=
  match db.getCollection name with
  | some c => c.searchPoints sim query_vector limit
  | none => []

/-!
## The Note Repository operations (`add_note_to_db`, `list_notes_from_db`)

`get_embedding` is one outbound call to the embedding endpoint; it is the
parameter `embed` below.
-/

/-- `add_note_to_db(note_text)` from `src/app.py` lines 73–90: read the
exact point count, upsert a point with id `count + 1`, vector
`get_embedding(note_text)` and payload `{"text": note_text}`. -/
def add_note_to_db (embed : String → List ℚ) (db : QdrantDB) (note_text : String) :
    QdrantDB :=
  let points_count := db.countPoints QDRANT_COLLECTION_NAME
  db.upsert QDRANT_COLLECTION_NAME
    { id := points_count + 1
      vector := embed note_text
      payload := [("text", note_text)] }

/-- A value of the `{"text": ..., "score": ...}` result mapping. -/
inductive EntryVal where
  | str : String → EntryVal
  | sc : Option ℚ → EntryVal
deriving DecidableEq, Repr

/-- A result entry of `list_notes_from_db`: a mapping, modelled as an
association list of keys to values. -/
abbrev Entry := List (String × EntryVal)

/-- The dict literal `{"text": text, "score": score}` built in both
branches of `list_notes_from_db`. -/
def noteEntry (text : String) (score : Option ℚ) : Entry :=
  [("text", EntryVal.str text), ("score", EntryVal.sc score)]

/-- Python truthiness of the optional `query` argument:
`not query` is true for `None` and for the empty string. -/
def queryFalsy : Option String → Bool
  | none => true
  | some q => q.isEmpty

/-- `list_notes_from_db(query=None)` from `src/app.py` lines 93–125:
falsy query → scroll with limit 10, entries `{"text": t, "score": None}`;
truthy query → embed the query, search with limit 10, entries
`{"text": t, "score": s}` in search order. -/
def list_notes_from_db (embed : String → List ℚ) (sim : List ℚ → List ℚ → ℚ)
    (db : QdrantDB) (query : Option String) : List Entry :=
  if queryFalsy query then
    (db.scroll QDRANT_COLLECTION_NAME 10).map
      (fun note => noteEntry note.payloadText none)
  else
    (db.searchPoints QDRANT_COLLECTION_NAME sim
        (embed ((query.getD ""))) 10).map
      (fun note => noteEntry note.1.payloadText (some note.2))

/-- `assure_db_collection_exists()` from `src/app.py` lines 48–60: create
the collection (dimension `EMBEDDING_DIM`, cosine) only when it does not
exist yet. -/
def assure_db_collection_exists (db : QdrantDB) : Except String QdrantDB :=
  if db.collection_exists QDRANT_COLLECTION_NAME then
    .ok db
  else
    db.create_collection QDRANT_COLLECTION_NAME EMBEDDING_DIM Distance.COSINE

/-!
## Client accessors (`get_openai_client`, `get_qdrant_client`)

Object identity is modelled by giving every constructed client object a
fresh allocation number. `get_qdrant_client` is decorated with
`@st.cache_resource`, so its construction is memoised in process-wide
state; `get_openai_client` has no decorator and runs
`return OpenAI(api_key=...)` on every call.
-/

/-- Process-wide state relevant to client construction: the next fresh
object number and the `st.cache_resource` slot for `get_qdrant_client`. -/
structure ClientWorld where
  nextObj : Nat
  qdrantCache : Option Nat
deriving DecidableEq, Repr

/-- `get_openai_client()` from `src/app.py` lines 22–23: constructs a new
`OpenAI(...)` object on every call. Returns the object and the new world. -/
def get_openai_client (w : ClientWorld) : Nat × ClientWorld :=
  (w.nextObj, { w with nextObj := w.nextObj + 1 })

/-- `get_qdrant_client()` from `src/app.py` lines 43–45: under
`@st.cache_resource` the first call constructs `QdrantClient(...)` and
caches it; later calls return the cached object. -/
def get_qdrant_client (w : ClientWorld) : Nat × ClientWorld :=
  match w.qdrantCache with
  | some c => (c, w)
  | none => (w.nextObj, { nextObj := w.nextObj + 1, qdrantCache := some w.nextObj })

/-!
## The main script's credential gate (`src/app.py` lines 131–168)

The script is modelled as the list of user-visible / remote effects it
performs on one run, as a function of the `.env` content, the session
state, and the text the user typed into the key prompt.
-/

/-- Python truthiness of `st.session_state.get("openai_api_key")`:
falsy when the key is absent or the empty string. -/
def keyFalsy : Option String → Bool
  | none => true
  | some s => s.isEmpty

/-- One observable step of the main script. -/
inductive Effect where
  | infoPrompt : Effect
  | successKeySaved : Effect
  | rerun : Effect
  | stopped : Effect
  | remote : String → Effect
  | render : String → Effect
deriving DecidableEq, Repr

def Effect.isRemote : Effect → Bool
  | .remote _ => true
  | _ => false

/-- The credential gate of the main script (`src/app.py` lines 136–152)
followed by the first remote-touching step (`assure_db_collection_exists`,
line 168): `env_key` is `env.get("OPENAI_API_KEY")` (`none` when the key
is not in the `.env` file), `session_key` the session value before the
run, `user_input` what the prompt's text input returns. Produces the
effect trace of the run; `st.stop()` ends the trace, and so does
`st.rerun()`. -/
def main_script (env_key session_key : Option String) (user_input : String) :
    List Effect :=
  let afterFill : Option String × List Effect :=
    if keyFalsy session_key then
      match env_key with
      | some k => (some k, [])
      | none =>
          if user_input.isEmpty then
            (some user_input, [Effect.infoPrompt])
          else
            (some user_input, [Effect.infoPrompt, Effect.successKeySaved, Effect.rerun])
    else (session_key, [])
  let key := afterFill.1
  let pre := afterFill.2
  if pre.contains Effect.rerun then pre
  else if keyFalsy key then pre ++ [Effect.stopped]
  else
    pre ++ [Effect.render "title", Effect.remote "assure_db_collection_exists"]

/-!
## Search-tab rendering (`src/app.py` lines 207–214)

For each entry the tab renders the text, and renders the score line only
under `if note["score"]:` — Python truthiness, falsy for `None` and for a
numeric zero.
-/

/-- Python truthiness of `note["score"]`. -/
def scoreTruthy : Option ℚ → Bool
  | none => false
  | some v => v != 0

/-- The markdown lines produced for one search result entry: the text,
then the score line only under `if note["score"]:`. -/
def render_search_note (text : String) (score : Option ℚ) : List String :=
  [text] ++
    (if scoreTruthy score then
      [":violet[" ++ (match score with | some v => toString v | none => "None") ++ "]"]
    else [])

/-!
## Add-tab session digest handling (`src/app.py` lines 176–187)
-/

/-- The session fields the digest check reads and writes. -/
structure AddTabSession where
  note_audio_bytes_md5 : Option String
  note_audio_text : String
  note_text : String
deriving DecidableEq, Repr

/-- The digest comparison of the add tab: when the exported recording's
MD5 differs from the stored one, clear the transcript and edit buffer and
store the new digest; otherwise leave the session untouched. -/
def add_tab_digest_update (s : AddTabSession) (current_md5 : String) : AddTabSession :=
  if s.note_audio_bytes_md5 ≠ some current_md5 then
    { note_audio_bytes_md5 := some current_md5
      note_audio_text := ""
      note_text := "" }
  else s

/-!
## Result-entry accessors and concrete instances used in witnesses
-/

/-- The `"text"` value of a result entry. -/
def Entry.textField (e : Entry) : Option String :=
  match e.find? (fun kv => kv.1 == "text") with
  | some (_, EntryVal.str t) => some t
  | _ => none

/-- The `"score"` value of a result entry (`some s` when the entry carries
a score key, which may itself be `None`). -/
def Entry.scoreField (e : Entry) : Option (Option ℚ) :=
  match e.find? (fun kv => kv.1 == "score") with
  | some (_, EntryVal.sc s) => some s
  | _ => none

/-- True when the entry carries a non-null numeric score. -/
def entryHasNumericScore (e : Entry) : Bool :=
  match e.scoreField with
  | some (some _) => true
  | _ => false

/-- Whether some entry of a result list has text equal to `t`. -/
def listingIncludesText (l : List Entry) (t : String) : Bool :=
  l.any (fun e => e.textField == some t)

/-- A trivial embedding client used for concrete evaluations. -/
def embed0 : String → List ℚ := fun _ => []

/-- A trivial store-side similarity measure used for concrete evaluations. -/
def sim0 : List ℚ → List ℚ → ℚ := fun _ _ => 0

/-- A `"notes"` collection with the configured dimension and metric. -/
def notesCollection (ps : List PointStruct) : Collection :=
  { size := EMBEDDING_DIM, distance := Distance.COSINE, points := ps }

/-- A store holding just the `"notes"` collection with the given points. -/
def dbWith (ps : List PointStruct) : QdrantDB :=
  { collections := [(QDRANT_COLLECTION_NAME, notesCollection ps)] }

/-- A point as written by `add_note_to_db` (vector under `embed0`). -/
def mkPoint (i : Nat) (t : String) : PointStruct :=
  { id := i, vector := [], payload := [("text", t)] }

/-- A store whose `"notes"` collection already holds ten points, ids 1–10. -/
def db10 : QdrantDB :=
  dbWith ((List.range 10).map (fun i => mkPoint (i + 1) ("n" ++ toString i)))

/-!
## Helper lemmas about upsert and collection lookup
-/

theorem find?_map_replace (ps : List PointStruct) (p : PointStruct)
    (h : ps.any (fun q => q.id == p.id) = true) :
    (ps.map (fun q => if q.id == p.id then p else q)).find?
      (fun q => q.id == p.id) = some p := by
  induction ps with
  | nil => simp at h
  | cons a as ih =>
      by_cases ha : (a.id == p.id) = true
      · rw [List.map_cons, if_pos ha]
        exact List.find?_cons_of_pos _ (beq_self_eq_true p.id)
      · simp only [List.any_cons, Bool.or_eq_true] at h
        rcases h with h | h
        · exact absurd h ha
        · rw [List.map_cons, if_neg ha,
            @List.find?_cons_of_neg _ (fun q => q.id == p.id) a _ ha]
          exact ih h

theorem upsertPoint_find (c : Collection) (p : PointStruct) :
    (c.upsertPoint p).points.find? (fun q => q.id == p.id) = some p := by
  unfold Collection.upsertPoint
  by_cases h : c.points.any (fun q => q.id == p.id) = true
  · rw [if_pos h]
    exact find?_map_replace c.points p h
  · rw [if_neg h]
    have hnone : c.points.find? (fun q => q.id == p.id) = none := by
      rw [List.find?_eq_none]
      intro x hx hpx
      exact h (List.any_eq_true.mpr ⟨x, hx, hpx⟩)
    simp [List.find?_append, hnone, List.find?_cons]

theorem upsertPoint_points_fresh (c : Collection) (p : PointStruct)
    (h : c.points.any (fun q => q.id == p.id) = false) :
    (c.upsertPoint p).points = c.points ++ [p] := by
  unfold Collection.upsertPoint
  rw [if_neg (by simp [h])]

theorem find?_upsert_list (l : List (String × Collection)) (name : String)
    (p : PointStruct) :
    ((l.map (fun c => if c.1 == name then (c.1, c.2.upsertPoint p) else c)).find?
        (fun c => c.1 == name)) =
      (l.find? (fun c => c.1 == name)).map
        (fun c => (c.1, c.2.upsertPoint p)) := by
  induction l with
  | nil => rfl
  | cons a as ih =>
      by_cases ha : (a.1 == name) = true
      · rw [List.map_cons, if_pos ha,
          @List.find?_cons_of_pos _ (fun c => c.1 == name) (a.1, a.2.upsertPoint p) _ ha,
          @List.find?_cons_of_pos _ (fun c => c.1 == name) a _ ha]
        rfl
      · rw [List.map_cons, if_neg ha,
          @List.find?_cons_of_neg _ (fun c => c.1 == name) a _ ha,
          @List.find?_cons_of_neg _ (fun c => c.1 == name) a _ ha]
        exact ih

theorem getCollection_upsert (db : QdrantDB) (name : String) (p : PointStruct) :
    (db.upsert name p).getCollection name =
      (db.getCollection name).map (fun c => c.upsertPoint p) := by
  unfold QdrantDB.upsert QdrantDB.getCollection
  rw [find?_upsert_list]
  cases db.collections.find? (fun c => c.1 == name) <;> rfl

theorem countPoints_eq (db : QdrantDB) (c : Collection)
    (hc : db.getCollection QDRANT_COLLECTION_NAME = some c) :
    db.countPoints QDRANT_COLLECTION_NAME = c.points.length := by
  unfold QdrantDB.countPoints
  rw [hc]

/-!
# Theorems for the claims
-/

/-- C2. Id assignment: given that the `"notes"` collection exists,
`add_note_to_db` upserts into it exactly the point whose id is the exact
point count at call time plus one, whose vector is the embedding client's
output for the note text, and whose payload is exactly
`{"text": note_text}`; afterwards that point is retrievable by its id. -/
theorem add_note_to_db_upserts_count_plus_one
    (embed : String → List ℚ) (db : QdrantDB) (c : Collection) (note_text : String)
    (hc : db.getCollection QDRANT_COLLECTION_NAME = some c) :
    (add_note_to_db embed db note_text).getCollection QDRANT_COLLECTION_NAME =
      some (c.upsertPoint
        { id := db.countPoints QDRANT_COLLECTION_NAME + 1
          vector := embed note_text
          payload := [("text", note_text)] }) ∧
    ∃ c2, (add_note_to_db embed db note_text).getCollection QDRANT_COLLECTION_NAME =
        some c2 ∧
      c2.points.find?
          (fun q => q.id == db.countPoints QDRANT_COLLECTION_NAME + 1) =
        some { id := db.countPoints QDRANT_COLLECTION_NAME + 1
               vector := embed note_text
               payload := [("text", note_text)] } := by
  have h1 : (add_note_to_db embed db note_text).getCollection QDRANT_COLLECTION_NAME =
      some (c.upsertPoint
        { id := db.countPoints QDRANT_COLLECTION_NAME + 1
          vector := embed note_text
          payload := [("text", note_text)] }) := by
    unfold add_note_to_db
    rw [getCollection_upsert, hc]
    rfl
  refine ⟨h1, _, h1, ?_⟩
  exact upsertPoint_find c
    { id := db.countPoints QDRANT_COLLECTION_NAME + 1
      vector := embed note_text
      payload := [("text", note_text)] }

/-- C2 witness: a concrete store with one point; the point upserted for
`"b"` gets id 2 and payload `{"text": "b"}`. -/
theorem add_note_to_db_upserts_witness :
    (add_note_to_db embed0 (dbWith [mkPoint 1 "a"]) "b").getCollection
        QDRANT_COLLECTION_NAME =
      some ((notesCollection [mkPoint 1 "a"]).upsertPoint
        { id := (dbWith [mkPoint 1 "a"]).countPoints QDRANT_COLLECTION_NAME + 1
          vector := embed0 "b"
          payload := [("text", "b")] }) ∧
    ∃ c2, (add_note_to_db embed0 (dbWith [mkPoint 1 "a"]) "b").getCollection
        QDRANT_COLLECTION_NAME = some c2 ∧
      c2.points.find?
          (fun q => q.id ==
            (dbWith [mkPoint 1 "a"]).countPoints QDRANT_COLLECTION_NAME + 1) =
        some { id := (dbWith [mkPoint 1 "a"]).countPoints QDRANT_COLLECTION_NAME + 1
               vector := embed0 "b"
               payload := [("text", "b")] } :=
  add_note_to_db_upserts_count_plus_one embed0 (dbWith [mkPoint 1 "a"])
    (notesCollection [mkPoint 1 "a"]) "b" rfl

theorem scroll_of_getCollection (db : QdrantDB) (c : Collection) (limit : Nat)
    (hc : db.getCollection QDRANT_COLLECTION_NAME = some c) :
    db.scroll QDRANT_COLLECTION_NAME limit = c.scroll limit := by
  unfold QdrantDB.scroll
  rw [hc]

theorem searchPoints_of_getCollection (db : QdrantDB) (c : Collection)
    (sim : List ℚ → List ℚ → ℚ) (v : List ℚ) (limit : Nat)
    (hc : db.getCollection QDRANT_COLLECTION_NAME = some c) :
    db.searchPoints QDRANT_COLLECTION_NAME sim v limit = c.searchPoints sim v limit := by
  unfold QdrantDB.searchPoints
  rw [hc]

/-- C1 counterexample: with ten notes already stored (ids 1–10), adding an
eleventh note and then listing with an empty query does not return the new
note — the scroll is capped at the ten lowest ids, and the new note has
the highest id. -/
theorem add_roundtrip_fails_at_ten_notes :
    listingIncludesText
      (list_notes_from_db embed0 sim0 (add_note_to_db embed0 db10 "new") none)
      "new" = false := by decide

/-- C1 amended: for a store whose `"notes"` collection holds fewer than 10
points with ids bounded by the point count (the invariant of stores built
by sequential adds), a successful `add_note_to_db` of `t` makes the
empty-query listing include an entry with text `t`, and exactly one new
retrievable point with payload text `t` exists. -/
theorem add_then_list_includes_text
    (embed : String → List ℚ) (sim : List ℚ → List ℚ → ℚ)
    (db : QdrantDB) (c : Collection) (t : String)
    (ht : t ≠ "")
    (hc : db.getCollection QDRANT_COLLECTION_NAME = some c)
    (hlen : c.points.length < 10)
    (hids : ∀ p ∈ c.points, p.id ≤ c.points.length) :
    listingIncludesText
      (list_notes_from_db embed sim (add_note_to_db embed db t) none) t = true ∧
    ∃ c2, (add_note_to_db embed db t).getCollection QDRANT_COLLECTION_NAME =
        some c2 ∧
      c2.points.countP (fun p => p.payloadText == t) =
        c.points.countP (fun p => p.payloadText == t) + 1 := by
  have hfresh : c.points.any
      (fun q => q.id == c.points.length + 1) = false := by
    rw [List.any_eq_false]
    intro q hq
    have hle := hids q hq
    simp only [beq_iff_eq]
    omega
  have hcoll : (add_note_to_db embed db t).getCollection QDRANT_COLLECTION_NAME =
      some (c.upsertPoint
        { id := c.points.length + 1, vector := embed t,
          payload := [("text", t)] }) := by
    unfold add_note_to_db
    rw [getCollection_upsert, hc, countPoints_eq db c hc]
    rfl
  have hpoints : (c.upsertPoint
      { id := c.points.length + 1, vector := embed t,
        payload := [("text", t)] }).points =
      c.points ++ [⟨c.points.length + 1, embed t, [("text", t)]⟩] :=
    upsertPoint_points_fresh c _ hfresh
  have hlensort :
      (List.insertionSort (fun a b => a.id ≤ b.id)
        (c.points ++ [⟨c.points.length + 1, embed t, [("text", t)]⟩])).length ≤ 10 := by
    rw [List.length_insertionSort, List.length_append]
    simp only [List.length_singleton]
    omega
  constructor
  · unfold listingIncludesText
    rw [List.any_eq_true]
    refine ⟨noteEntry t none, ?_, ?_⟩
    · show noteEntry t none ∈
        ((add_note_to_db embed db t).scroll QDRANT_COLLECTION_NAME 10).map
          (fun note => noteEntry note.payloadText none)
      rw [scroll_of_getCollection _ _ _ hcoll]
      unfold Collection.scroll
      rw [hpoints, List.take_of_length_le hlensort]
      have hmem : (⟨c.points.length + 1, embed t, [("text", t)]⟩ : PointStruct) ∈
          List.insertionSort (fun a b => a.id ≤ b.id)
            (c.points ++ [⟨c.points.length + 1, embed t, [("text", t)]⟩]) := by
        rw [List.mem_insertionSort]
        exact List.mem_append_right _ (List.mem_singleton_self _)
      exact List.mem_map_of_mem _ hmem
    · show ((noteEntry t none).textField == some t) = true
      unfold Entry.textField noteEntry
      rw [@List.find?_cons_of_pos _ (fun kv => kv.1 == "text")
        ("text", EntryVal.str t) _ (by rfl)]
      simp
  · refine ⟨c.upsertPoint
      { id := c.points.length + 1, vector := embed t,
        payload := [("text", t)] }, hcoll, ?_⟩
    rw [hpoints, List.countP_append]
    have h1 : List.countP (fun p => p.payloadText == t)
        ([⟨c.points.length + 1, embed t, [("text", t)]⟩] : List PointStruct) = 1 := by
      have hpt : (⟨c.points.length + 1, embed t, [("text", t)]⟩ :
          PointStruct).payloadText = t := rfl
      simp [List.countP_cons, hpt]
    rw [h1]

/-- C1 witness for the amended statement: adding `"a"` to the empty store
makes the empty-query listing include it, and exactly one point with
payload text `"a"` exists. -/
theorem add_then_list_includes_text_witness :
    listingIncludesText
      (list_notes_from_db embed0 sim0 (add_note_to_db embed0 (dbWith []) "a") none)
      "a" = true ∧
    ∃ c2, (add_note_to_db embed0 (dbWith []) "a").getCollection
        QDRANT_COLLECTION_NAME = some c2 ∧
      c2.points.countP (fun p => p.payloadText == "a") =
        (notesCollection []).points.countP (fun p => p.payloadText == "a") + 1 :=
  add_then_list_includes_text embed0 sim0 (dbWith []) (notesCollection []) "a"
    (by decide) rfl (by decide)
    (by intro p hp; exact absurd hp (List.not_mem_nil p))

/-- C3. Result cap: for every store state and every query, empty or not,
`list_notes_from_db` returns at most 10 entries. -/
theorem list_notes_from_db_length_le_ten
    (embed : String → List ℚ) (sim : List ℚ → List ℚ → ℚ)
    (db : QdrantDB) (query : Option String) :
    (list_notes_from_db embed sim db query).length ≤ 10 := by
  unfold list_notes_from_db
  split
  · simp only [List.length_map, QdrantDB.scroll]
    split
    · simp [Collection.scroll]
    · simp
  · simp only [List.length_map, QdrantDB.searchPoints]
    split
    · simp [Collection.searchPoints]
    · simp

/-- A one-point store used to instantiate hypotheses concretely. -/
def dbA : QdrantDB := dbWith [mkPoint 1 "a"]

/-- C4. Branching and score presence: every entry returned by
`list_notes_from_db` is a mapping with exactly the keys `text` and
`score`; under an empty or absent query (unranked branch) its score is
`None`, and under a non-empty query (similarity branch) its score is a
non-null numeric value. -/
theorem list_notes_from_db_entry_shape
    (embed : String → List ℚ) (sim : List ℚ → List ℚ → ℚ)
    (db : QdrantDB) (query : Option String) (e : Entry)
    (he : e ∈ list_notes_from_db embed sim db query) :
    e.map Prod.fst = ["text", "score"] ∧
    (queryFalsy query = true → e.scoreField = some none) ∧
    (queryFalsy query = false → entryHasNumericScore e = true) := by
  unfold list_notes_from_db at he
  by_cases hq : queryFalsy query = true
  · rw [if_pos hq] at he
    obtain ⟨p, hp, rfl⟩ := List.mem_map.mp he
    exact ⟨rfl, fun _ => rfl, fun hf => by rw [hq] at hf; cases hf⟩
  · rw [if_neg hq] at he
    obtain ⟨p, hp, rfl⟩ := List.mem_map.mp he
    exact ⟨rfl, fun htr => absurd htr hq, fun _ => rfl⟩

/-- C4 witness: concrete entries from both branches of a one-point store
have exactly the two keys, with `None` score in the unranked branch and a
numeric score in the ranked branch. -/
theorem list_notes_from_db_entry_shape_witness :
    (noteEntry "a" none).map Prod.fst = ["text", "score"] ∧
    (noteEntry "a" none).scoreField = some none ∧
    entryHasNumericScore (noteEntry "a" (some 0)) = true :=
  ⟨(list_notes_from_db_entry_shape embed0 sim0 dbA none
      (noteEntry "a" none) (by decide)).1,
   (list_notes_from_db_entry_shape embed0 sim0 dbA none
      (noteEntry "a" none) (by decide)).2.1 rfl,
   (list_notes_from_db_entry_shape embed0 sim0 dbA (some "q")
      (noteEntry "a" (some 0)) (by decide)).2.2 rfl⟩

/-- C5 counterexample: two invocations of `get_openai_client` within one
process construct two distinct client objects, so the accessor is not a
singleton. -/
theorem get_openai_client_not_singleton :
    (get_openai_client { nextObj := 0, qdrantCache := none }).1 ≠
      (get_openai_client
        (get_openai_client { nextObj := 0, qdrantCache := none }).2).1 := by
  decide

/-- C5 amended: the vector store client accessor `get_qdrant_client` is a
process-wide singleton (cached by `st.cache_resource`, so two invocations
return the same object), but `get_openai_client` constructs a fresh
`OpenAI` client object on every invocation. -/
theorem client_accessor_identity (w : ClientWorld) :
    (get_qdrant_client (get_qdrant_client w).2).1 = (get_qdrant_client w).1 ∧
    (get_openai_client (get_openai_client w).2).1 ≠ (get_openai_client w).1 := by
  constructor
  · cases h : w.qdrantCache <;> simp [get_qdrant_client, h]
  · simp [get_openai_client]

/-- C6. Credential gating: when no credential is in the `.env` file, none
is in the session, and the user supplies none at the prompt, the main
script stops before any remote call: its effect trace contains no remote
effect and ends in the blocking stop. -/
theorem missing_credential_blocks_remote_calls
    (session_key : Option String) (hs : keyFalsy session_key = true) :
    (main_script none session_key "").all (fun e => !e.isRemote) = true ∧
    Effect.stopped ∈ main_script none session_key "" := by
  have hm : main_script none session_key "" =
      [Effect.infoPrompt, Effect.stopped] := by
    unfold main_script
    rw [hs]
    rfl
  rw [hm]
  decide

/-- C6 witness: with an absent session key, no remote effect occurs and
the script stops. -/
theorem missing_credential_blocks_remote_calls_witness :
    (main_script none none "").all (fun e => !e.isRemote) = true ∧
    Effect.stopped ∈ main_script none none "" :=
  missing_credential_blocks_remote_calls none rfl

/-- C7. Zero-score display suppression: the search tab renders an entry's
score only when it is truthy, so a score of exactly 0, like a score of
`None`, is hidden, while any non-zero score is rendered. -/
theorem score_zero_hidden (t : String) (v : ℚ) (hv : v ≠ 0) :
    render_search_note t (some 0) = [t] ∧
    render_search_note t none = [t] ∧
    render_search_note t (some v) = [t, ":violet[" ++ toString v ++ "]"] := by
  refine ⟨?_, rfl, ?_⟩
  · simp [render_search_note, scoreTruthy]
  · simp [render_search_note, scoreTruthy, hv]

/-- C7 witness: a zero score is hidden and a score of 1 is rendered. -/
theorem score_zero_hidden_witness :
    render_search_note "a" (some 0) = ["a"] ∧
    render_search_note "a" (some 1) = ["a", ":violet[" ++ toString (1 : ℚ) ++ "]"] :=
  ⟨(score_zero_hidden "a" 1 (by decide)).1,
   (score_zero_hidden "a" 1 (by decide)).2.2⟩

/-- C8. Idempotent collection creation: starting from a store with at most
one collection named `"notes"`, any existing one carrying the configured
dimension and metric (the invariant of stores only ever touched by this
app), running `assure_db_collection_exists` twice succeeds both times,
the second call changes nothing, and exactly one `"notes"` collection
exists, with dimension `EMBEDDING_DIM` and cosine distance. -/
theorem assure_db_collection_exists_idempotent
    (db : QdrantDB)
    (hcount : db.collections.countP (fun c => c.1 == QDRANT_COLLECTION_NAME) ≤ 1)
    (hconf : ∀ c, db.getCollection QDRANT_COLLECTION_NAME = some c →
      c.size = EMBEDDING_DIM ∧ c.distance = Distance.COSINE) :
    ∃ db1, assure_db_collection_exists db = Except.ok db1 ∧
      assure_db_collection_exists db1 = Except.ok db1 ∧
      db1.collections.countP (fun c => c.1 == QDRANT_COLLECTION_NAME) = 1 ∧
      ∃ c, db1.getCollection QDRANT_COLLECTION_NAME = some c ∧
        c.size = EMBEDDING_DIM ∧ c.distance = Distance.COSINE := by
  by_cases he : db.collection_exists QDRANT_COLLECTION_NAME = true
  · have hex : ∃ c, db.getCollection QDRANT_COLLECTION_NAME = some c :=
      Option.isSome_iff_exists.mp he
    obtain ⟨c, hcget⟩ := hex
    refine ⟨db, ?_, ?_, ?_, c, hcget, hconf c hcget⟩
    · unfold assure_db_collection_exists
      rw [if_pos he]
    · unfold assure_db_collection_exists
      rw [if_pos he]
    · have hfind : ∃ pr, db.collections.find?
          (fun x => x.1 == QDRANT_COLLECTION_NAME) = some pr := by
        unfold QdrantDB.getCollection at hcget
        cases hf : db.collections.find? (fun x => x.1 == QDRANT_COLLECTION_NAME) with
        | none => rw [hf] at hcget; cases hcget
        | some pr => exact ⟨pr, rfl⟩
      obtain ⟨pr, hpr⟩ := hfind
      have hmem : pr ∈ db.collections := List.mem_of_find?_eq_some hpr
      have hprx : (pr.1 == QDRANT_COLLECTION_NAME) = true :=
        @List.find?_some _ (fun x => x.1 == QDRANT_COLLECTION_NAME) pr _ hpr
      have hpos : 0 < db.collections.countP
          (fun x => x.1 == QDRANT_COLLECTION_NAME) :=
        List.countP_pos_iff.mpr ⟨pr, hmem, hprx⟩
      omega
  · have hfind : db.collections.find?
        (fun x => x.1 == QDRANT_COLLECTION_NAME) = none := by
      unfold QdrantDB.collection_exists QdrantDB.getCollection at he
      cases hf : db.collections.find? (fun x => x.1 == QDRANT_COLLECTION_NAME) with
      | none => rfl
      | some pr => rw [hf] at he; exact absurd rfl he
    have hget1 : (QdrantDB.mk (db.collections ++
        [(QDRANT_COLLECTION_NAME, ⟨EMBEDDING_DIM, Distance.COSINE, []⟩)])).getCollection
          QDRANT_COLLECTION_NAME =
        some ⟨EMBEDDING_DIM, Distance.COSINE, []⟩ := by
      unfold QdrantDB.getCollection
      rw [List.find?_append, hfind]
      rfl
    refine ⟨QdrantDB.mk (db.collections ++
        [(QDRANT_COLLECTION_NAME, ⟨EMBEDDING_DIM, Distance.COSINE, []⟩)]),
      ?_, ?_, ?_, (⟨EMBEDDING_DIM, Distance.COSINE, []⟩ : Collection),
      hget1, rfl, rfl⟩
    · unfold assure_db_collection_exists
      rw [if_neg he]
      unfold QdrantDB.create_collection
      rw [if_neg he]
    · unfold assure_db_collection_exists
      rw [if_pos (show (QdrantDB.mk (db.collections ++
          [(QDRANT_COLLECTION_NAME,
            ⟨EMBEDDING_DIM, Distance.COSINE, []⟩)])).collection_exists
            QDRANT_COLLECTION_NAME = true by
        unfold QdrantDB.collection_exists
        rw [hget1]
        rfl)]
    · show (db.collections ++
        [(QDRANT_COLLECTION_NAME,
          (⟨EMBEDDING_DIM, Distance.COSINE, []⟩ : Collection))]).countP
          (fun x => x.1 == QDRANT_COLLECTION_NAME) = 1
      rw [List.countP_append]
      have hz : db.collections.countP (fun x => x.1 == QDRANT_COLLECTION_NAME) = 0 :=
        List.countP_eq_zero.mpr (fun a ha hpa =>
          (List.find?_eq_none.mp hfind) a ha hpa)
      rw [hz]
      rfl

/-- C8 witness: from the empty store, two runs succeed and leave exactly
one `"notes"` collection with the configured dimension and metric. -/
theorem assure_db_collection_exists_idempotent_witness :
    ∃ db1, assure_db_collection_exists { collections := [] } = Except.ok db1 ∧
      assure_db_collection_exists db1 = Except.ok db1 ∧
      db1.collections.countP (fun c => c.1 == QDRANT_COLLECTION_NAME) = 1 ∧
      ∃ c, db1.getCollection QDRANT_COLLECTION_NAME = some c ∧
        c.size = EMBEDDING_DIM ∧ c.distance = Distance.COSINE :=
  assure_db_collection_exists_idempotent { collections := [] } (by decide)
    (fun c hc => by cases hc)

/-- C9. Empty-store search: a non-empty query against an existing but
empty `"notes"` collection returns the empty sequence (the model is a
total function, so no error is raised on this path). -/
theorem empty_store_search_returns_nil
    (embed : String → List ℚ) (sim : List ℚ → List ℚ → ℚ)
    (db : QdrantDB) (c : Collection) (q : String)
    (hq : q ≠ "")
    (hc : db.getCollection QDRANT_COLLECTION_NAME = some c)
    (hpts : c.points = []) :
    list_notes_from_db embed sim db (some q) = [] := by
  have hq2 : queryFalsy (some q) = false := by
    show q.isEmpty = false
    rw [Bool.eq_false_iff]
    intro hcon
    exact hq ((String.isEmpty_iff q).mp hcon)
  unfold list_notes_from_db
  rw [if_neg (by rw [hq2]; exact Bool.false_ne_true)]
  rw [searchPoints_of_getCollection db c sim _ 10 hc]
  unfold Collection.searchPoints
  rw [hpts]
  rfl

/-- C9 witness: searching `"anything"` in the empty store yields `[]`. -/
theorem empty_store_search_returns_nil_witness :
    list_notes_from_db embed0 sim0 (dbWith []) (some "anything") = [] :=
  empty_store_search_returns_nil embed0 sim0 (dbWith []) (notesCollection [])
    "anything" (by decide) rfl rfl

/-- C10. Session reset on new recording digest: when the exported audio's
MD5 differs from the stored digest, `note_audio_text` and `note_text` are
reset to the empty string and the digest is updated; when it is unchanged,
all three fields are left as they were. -/
theorem add_tab_digest_update_spec (s : AddTabSession) (d : String) :
    (s.note_audio_bytes_md5 ≠ some d →
      add_tab_digest_update s d =
        { note_audio_bytes_md5 := some d, note_audio_text := "", note_text := "" }) ∧
    (s.note_audio_bytes_md5 = some d → add_tab_digest_update s d = s) := by
  constructor
  · intro h
    unfold add_tab_digest_update
    rw [if_pos h]
  · intro h
    unfold add_tab_digest_update
    rw [if_neg (by rw [h]; exact fun hcon => hcon rfl)]

/-- C10 witness: a fresh digest clears both text fields and stores the
digest; the same digest leaves the session unchanged. -/
theorem add_tab_digest_update_spec_witness :
    add_tab_digest_update
        { note_audio_bytes_md5 := none, note_audio_text := "x", note_text := "y" }
        "d" =
      { note_audio_bytes_md5 := some "d", note_audio_text := "", note_text := "" } ∧
    add_tab_digest_update
        { note_audio_bytes_md5 := some "d", note_audio_text := "x", note_text := "y" }
        "d" =
      { note_audio_bytes_md5 := some "d", note_audio_text := "x", note_text := "y" } :=
  ⟨(add_tab_digest_update_spec
      { note_audio_bytes_md5 := none, note_audio_text := "x", note_text := "y" }
      "d").1 (by decide),
   (add_tab_digest_update_spec
      { note_audio_bytes_md5 := some "d", note_audio_text := "x", note_text := "y" }
      "d").2 rfl⟩
